import Mathlib

/-!
Shallow embedding of the Travel-Mate MCP server (`src/web_server.py`) and
verification of its specification claims.

External effects (HTTP calls to the Kakao/Naver/Google providers and the
OpenAI completion service) are modelled as oracle inputs: each function that
performs such a call receives the call's already-parsed outcome as an
argument (`none` standing for provider failure, timeout, non-200 status, or
unparsable output — every path caught by the Python `except` clauses).
Python string primitives used by the code (`str.lower`, `str.replace`,
substring `in`, `urllib.parse.quote`) are re-implemented below as
kernel-computable Lean functions.
-/

/-- Model of Python's `str.lower()` (character-wise; only ASCII letters are
affected, which is exact for the ASCII/Korean data this program handles). -/
def pyToLower (s : String) : String := ⟨s.toList.map Char.toLower⟩

/-- `isSubList pat hay` is true iff `pat` occurs contiguously inside `hay`. -/
def isSubList : List Char → List Char → Bool
  | pat, [] => pat.isEmpty
  | pat, c :: rest => pat.isPrefixOf (c :: rest) || isSubList pat rest

/-- Model of Python's substring test `needle in hay`. -/
def pyIn (needle hay : String) : Bool := isSubList needle.toList hay.toList

/-- Fuel-indexed replacement of every non-overlapping occurrence of `pat`
(left to right), as Python's `str.replace` does for a non-empty pattern. -/
def replaceFuel (pat rep : List Char) : Nat → List Char → List Char
  | 0, l => l
  | _ + 1, [] => []
  | n + 1, c :: rest =>
    if pat.isPrefixOf (c :: rest) then rep ++ replaceFuel pat rep n ((c :: rest).drop pat.length)
    else c :: replaceFuel pat rep n rest

/-- Model of Python's `s.replace(pat, rep)` for the non-empty patterns
(`"<b>"`, `"</b>"`) the code uses. -/
def pyReplace (s pat rep : String) : String :=
  if pat.toList.isEmpty then s
  else ⟨replaceFuel pat.toList rep.toList s.toList.length s.toList⟩

/-- Stable insertion (descending by string length) used to model Python's
stable `list.sort(key=len, reverse=True)`. -/
def insertLenDesc (a : String) : List String → List String
  | [] => [a]
  | b :: l => if a.length < b.length then b :: insertLenDesc a l else a :: b :: l

/-- Stable sort, descending by string length: model of
`lst.sort(key=len, reverse=True)`. -/
def sortLenDesc (l : List String) : List String := l.foldr insertLenDesc []

/-- Uppercase hex digit. -/
def hexDig (n : Nat) : Char := if n < 10 then Char.ofNat (48 + n) else Char.ofNat (55 + n)

/-- UTF-8 encoding of one code point as byte values. -/
def utf8Bytes (c : Char) : List Nat :=
  let n := c.toNat
  if n < 0x80 then [n]
  else if n < 0x800 then [0xC0 + n / 0x40, 0x80 + n % 0x40]
  else if n < 0x10000 then [0xE0 + n / 0x1000, 0x80 + (n / 0x40) % 0x40, 0x80 + n % 0x40]
  else [0xF0 + n / 0x40000, 0x80 + (n / 0x1000) % 0x40, 0x80 + (n / 0x40) % 0x40, 0x80 + n % 0x40]

/-- Percent-encoding of one byte as `urllib.parse.quote` does with the
default `safe='/'`: ALPHA, DIGIT, `_`, `.`, `-`, `~` and `/` pass through. -/
def quoteByteN (n : Nat) : List Char :=
  if (65 ≤ n ∧ n ≤ 90) ∨ (97 ≤ n ∧ n ≤ 122) ∨ (48 ≤ n ∧ n ≤ 57) ∨
     n = 95 ∨ n = 46 ∨ n = 45 ∨ n = 126 ∨ n = 47
  then [Char.ofNat n] else ['%', hexDig (n / 16), hexDig (n % 16)]

/-- Model of `urllib.parse.quote(s)`. -/
def pyQuote (s : String) : String := ⟨((s.toList.flatMap utf8Bytes).map quoteByteN).flatten⟩

/-- `FAST_REGIONS` (web_server.py lines 132-197), in source order.  The Python
object is a `set`, whose iteration order is interpreter-specific; every claim
settled below is invariant under that order. -/
def FAST_REGIONS : List String := [
  "서울", "부산", "인천", "대구", "광주", "대전", "울산", "세종",
  "수원", "성남", "고양", "용인", "안양", "화성", "평택", "시흥",
  "파주", "의정부", "광명", "김포", "군포", "이천", "오산", "경주",
  "강남", "강북", "종로", "명동", "홍대", "이태원", "광교", "분당", "잠실",
  "해운대", "광안리", "남포동", "송도", "구월동", "송파", "강동",
  "제주", "서귀포", "애월", "성산",
  "도쿄", "tokyo", "신주쿠", "shinjuku", "시부야", "shibuya",
  "아키하바라", "akihabara", "나카노", "nakano", "이케부쿠로", "ikebukuro",
  "우에노", "ueno", "하라주쿠", "harajuku", "롯폰기", "roppongi",
  "오사카", "osaka", "난바", "namba", "도톤보리", "dotonbori", "우메다", "umeda",
  "교토", "kyoto", "후시미", "fushimi", "기온", "gion",
  "나고야", "nagoya",
  "후쿠오카", "fukuoka", "하카타", "hakata",
  "삿포로", "sapporo",
  "오키나와", "okinawa", "나하", "naha",
  "히로시마", "hiroshima",
  "고베", "kobe",
  "요코하마", "yokohama",
  "파리", "paris", "샤를드골", "charles de gaulle", "에펠탑", "eiffel",
  "루브르", "louvre", "몽마르트", "montmartre", "샹젤리제", "champs elysees",
  "뉴욕", "new york", "맨해튼", "manhattan", "브루클린", "brooklyn",
  "LA", "los angeles", "할리우드", "hollywood", "산타모니카", "santa monica",
  "샌프란시스코", "san francisco",
  "라스베가스", "las vegas",
  "시카고", "chicago",
  "마이애미", "miami",
  "시애틀", "seattle",
  "보스턴", "boston",
  "워싱턴", "washington", "washington dc",
  "텍사스", "texas", "휴스턴", "houston", "달라스", "dallas", "오스틴", "austin",
  "하와이", "hawaii", "호놀룰루", "honolulu",
  "런던", "london",
  "베를린", "berlin",
  "로마", "rome",
  "바르셀로나", "barcelona",
  "암스테르담", "amsterdam",
  "프라하", "prague",
  "비엔나", "vienna",
  "방콕", "bangkok",
  "싱가포르", "singapore",
  "발리", "bali",
  "다낭", "danang",
  "호치민", "ho chi minh",
  "하노이", "hanoi",
  "상하이", "shanghai",
  "베이징", "beijing",
  "홍콩", "hong kong",
  "시드니", "sydney",
  "멜버른", "melbourne"]

/-- `REGION_EXPAND` (web_server.py lines 200-208), in source (insertion)
order; Python dict iteration preserves insertion order. -/
def REGION_EXPAND : List (String × List String) := [
  ("잠실", ["잠실", "송파", "강동"]),
  ("광교", ["광교", "수원", "영통"]),
  ("분당", ["분당", "성남", "판교"]),
  ("강남", ["강남", "서초", "역삼"]),
  ("홍대", ["홍대", "마포", "서교"]),
  ("해운대", ["해운대", "부산"]),
  ("광안리", ["광안리", "부산"])]

/-- `INTERNATIONAL_CITIES` (web_server.py lines 221-242), in source order.
A Python `set`; all uses below are order-invariant `any`-scans. -/
def INTERNATIONAL_CITIES : List String := [
  "도쿄", "tokyo", "오사카", "osaka", "교토", "kyoto",
  "나카노", "nakano", "신주쿠", "shinjuku", "시부야", "shibuya",
  "나고야", "nagoya", "후쿠오카", "fukuoka", "삿포로", "sapporo",
  "오키나와", "okinawa", "히로시마", "hiroshima", "고베", "kobe",
  "요코하마", "yokohama", "하카타", "hakata", "나하", "naha",
  "파리", "paris", "샤를드골", "charles", "에펠탑", "eiffel",
  "뉴욕", "new york", "LA", "los angeles", "샌프란시스코", "san francisco",
  "라스베가스", "las vegas", "시카고", "chicago", "마이애미", "miami",
  "시애틀", "seattle", "보스턴", "boston", "워싱턴", "washington",
  "텍사스", "texas", "휴스턴", "houston", "달라스", "dallas", "오스틴", "austin",
  "하와이", "hawaii", "호놀룰루", "honolulu",
  "런던", "london", "베를린", "berlin", "로마", "rome",
  "방콕", "bangkok", "싱가포르", "singapore", "홍콩", "hong kong"]

/-- `CITY_TO_COUNTRY` (web_server.py lines 245-331), in source (insertion)
order; Python dict iteration preserves insertion order. -/
def CITY_TO_COUNTRY : List (String × String) := [
  ("도쿄", "Japan"), ("tokyo", "Japan"),
  ("오사카", "Japan"), ("osaka", "Japan"),
  ("교토", "Japan"), ("kyoto", "Japan"),
  ("나고야", "Japan"), ("nagoya", "Japan"),
  ("후쿠오카", "Japan"), ("fukuoka", "Japan"),
  ("삿포로", "Japan"), ("sapporo", "Japan"),
  ("오키나와", "Japan"), ("okinawa", "Japan"),
  ("히로시마", "Japan"), ("hiroshima", "Japan"),
  ("고베", "Japan"), ("kobe", "Japan"),
  ("요코하마", "Japan"), ("yokohama", "Japan"),
  ("신주쿠", "Japan"), ("shinjuku", "Japan"),
  ("시부야", "Japan"), ("shibuya", "Japan"),
  ("나카노", "Japan"), ("nakano", "Japan"),
  ("하카타", "Japan"), ("hakata", "Japan"),
  ("나하", "Japan"), ("naha", "Japan"),
  ("아키하바라", "Japan"), ("akihabara", "Japan"),
  ("이케부쿠로", "Japan"), ("ikebukuro", "Japan"),
  ("우에노", "Japan"), ("ueno", "Japan"),
  ("하라주쿠", "Japan"), ("harajuku", "Japan"),
  ("롯폰기", "Japan"), ("roppongi", "Japan"),
  ("난바", "Japan"), ("namba", "Japan"),
  ("도톤보리", "Japan"), ("dotonbori", "Japan"),
  ("우메다", "Japan"), ("umeda", "Japan"),
  ("후시미", "Japan"), ("fushimi", "Japan"),
  ("기온", "Japan"), ("gion", "Japan"),
  ("뉴욕", "USA"), ("new york", "USA"),
  ("LA", "USA"), ("los angeles", "USA"),
  ("샌프란시스코", "USA"), ("san francisco", "USA"),
  ("라스베가스", "USA"), ("las vegas", "USA"),
  ("시카고", "USA"), ("chicago", "USA"),
  ("마이애미", "USA"), ("miami", "USA"),
  ("시애틀", "USA"), ("seattle", "USA"),
  ("보스턴", "USA"), ("boston", "USA"),
  ("워싱턴", "USA"), ("washington", "USA"),
  ("텍사스", "USA"), ("texas", "USA"),
  ("휴스턴", "USA"), ("houston", "USA"),
  ("달라스", "USA"), ("dallas", "USA"),
  ("오스틴", "USA"), ("austin", "USA"),
  ("하와이", "USA"), ("hawaii", "USA"),
  ("호놀룰루", "USA"), ("honolulu", "USA"),
  ("맨해튼", "USA"), ("manhattan", "USA"),
  ("브루클린", "USA"), ("brooklyn", "USA"),
  ("할리우드", "USA"), ("hollywood", "USA"),
  ("산타모니카", "USA"), ("santa monica", "USA"),
  ("파리", "France"), ("paris", "France"),
  ("런던", "UK"), ("london", "UK"),
  ("베를린", "Germany"), ("berlin", "Germany"),
  ("로마", "Italy"), ("rome", "Italy"),
  ("바르셀로나", "Spain"), ("barcelona", "Spain"),
  ("방콕", "Thailand"), ("bangkok", "Thailand"),
  ("싱가포르", "Singapore"), ("singapore", "Singapore"),
  ("홍콩", "Hong Kong"), ("hong kong", "Hong Kong"),
  ("상하이", "China"), ("shanghai", "China"),
  ("베이징", "China"), ("beijing", "China"),
  ("다낭", "Vietnam"), ("danang", "Vietnam"),
  ("호치민", "Vietnam"), ("ho chi minh", "Vietnam"),
  ("하노이", "Vietnam"), ("hanoi", "Vietnam"),
  ("발리", "Indonesia"), ("bali", "Indonesia"),
  ("시드니", "Australia"), ("sydney", "Australia"),
  ("멜버른", "Australia"), ("melbourne", "Australia")]

/-- `INTERNATIONAL_KEYWORDS` (web_server.py line 334). -/
def INTERNATIONAL_KEYWORDS : List String := ["역", "station", "airport", "공항"]

/-- Outcome of the completion-service call inside `extract_regions_hybrid`:
the client may be absent, the call may raise, or it may return a parsed
`regions` list. -/
inductive RegionLLM where
  | noClient : RegionLLM
  | failure : RegionLLM
  | success (gptRegions : List String) : RegionLLM
  deriving DecidableEq

/-- Heuristic pass of `extract_regions_hybrid` (web_server.py lines 522-531):
collect every `FAST_REGIONS` entry occurring case-insensitively in the text,
deduplicate, and stable-sort by length descending. -/
def heuristic_found (text : String) : List String :=
  sortLenDesc ((FAST_REGIONS.filter
    (fun region => pyIn (pyToLower region) (pyToLower text))).dedup)

/-- `extract_regions_hybrid` (web_server.py lines 519-581).  The completion
call is an oracle; on `noClient` or `failure` the heuristic list (truncated
to 3) is returned, on `success` the union with the model's regions is
deduplicated, sorted by length descending, and truncated to 3. -/
def extract_regions_hybrid (text : String) (llm : RegionLLM) : List String :=
  let found := heuristic_found text
  match llm with
  | .noClient => if found.isEmpty then [] else found.take 3
  | .failure => if found.isEmpty then [] else found.take 3
  | .success gptRegions => (sortLenDesc ((found ++ gptRegions).dedup)).take 3

/-- `expand_regions` (web_server.py lines 583-591): known Korean regions are
replaced by their expansion list, unknown regions pass through; the result is
deduplicated (`list(set(...))`, whose order is interpreter-specific — every
claim settled below is order-invariant). -/
def expand_regions (regions : List String) : List String :=
  (regions.flatMap (fun region =>
    match REGION_EXPAND.find? (fun kv => kv.1 == region) with
    | some kv => kv.2
    | none => [region])).dedup

/-- `get_country_for_city` (web_server.py lines 400-415): exact lookup of the
lowercased then the original string, then a first-match linear scan for
substring overlap in either direction. -/
def get_country_for_city (city_name : String) : Option String :=
  let city_lower := pyToLower city_name
  match CITY_TO_COUNTRY.find? (fun kv => kv.1 == city_lower) with
  | some kv => some kv.2
  | none =>
    match CITY_TO_COUNTRY.find? (fun kv => kv.1 == city_name) with
    | some kv => some kv.2
    | none =>
      (CITY_TO_COUNTRY.find? (fun kv =>
        pyIn kv.1 city_lower || pyIn city_lower kv.1)).map (fun kv => kv.2)

/-- `filter_relevant_places_batch` (web_server.py lines 625-672).
`clientAvail` models `client` being configured; `resp` is the completion
call's outcome: `none` for any exception (timeout, unparsable JSON,
ill-typed indices — all caught by the `except` returning the input
unchanged), `some idxs` for a parsed `relevant_indices` list.  Python
collects the indices into a `set` before use (modelled by `dedup`; only the
selected multiset may differ across interpreters, never which names are
selectable) and keeps the 1-based in-bounds ones. -/
def filter_relevant_places_batch (place_names : List String) (clientAvail : Bool)
    (resp : Option (List Int)) : List String :=
  if place_names.isEmpty || !clientAvail then place_names
  else
    match resp with
    | none => place_names
    | some idxs =>
      idxs.dedup.filterMap (fun i =>
        if 1 ≤ i ∧ i ≤ (place_names.length : Int) then place_names[(i - 1).toNat]?
        else none)

/-- `is_international_route` (web_server.py lines 382-398): the endpoints are
lowercased and scanned (case-sensitively) for international-city tokens,
then for city+transit-keyword combinations. -/
def is_international_route (start goal : String) : Bool :=
  let start_lower := pyToLower start
  let goal_lower := pyToLower goal
  INTERNATIONAL_CITIES.any (fun city => pyIn city start_lower || pyIn city goal_lower) ||
  INTERNATIONAL_CITIES.any (fun city => INTERNATIONAL_KEYWORDS.any (fun keyword =>
    (pyIn city start_lower && pyIn keyword start_lower) ||
    (pyIn city goal_lower && pyIn keyword goal_lower)))

/-- Domestic-country markers used by `search_international`
(web_server.py line 920). -/
def korea_markers : List String :=
  ["대한민국", "korea", " kr", "south korea", "서울", "부산", "경기", "인천"]

/-- One Google Places result as used by `search_international`: the fields
the pipeline reads (`formatted_address` defaulting to `''` when absent). -/
structure GPlace where
  name : String
  formatted_address : String
  vicinity : String
  place_id : String
  user_ratings_total : Nat
  deriving DecidableEq

/-- Country filter of `search_international` (web_server.py lines 915-925):
drop every result whose lowercased formatted address contains a
domestic-country marker. -/
def international_filtered (places : List GPlace) : List GPlace :=
  places.filter (fun p =>
    !(korea_markers.any (fun kr => pyIn kr (pyToLower p.formatted_address))))

/-- The places `search_international` formats into its output text
(web_server.py line 939): the first 10 of the filtered list.  When the
filtered list is empty the function instead returns the no-results marker, so
exactly the places listed here appear in the returned text. -/
def international_shown (places : List GPlace) : List GPlace :=
  (international_filtered places).take 10

/-- One Naver local-search item as used by `search_domestic`: `title` is read
directly, the other fields through `.get(..., '')`. -/
structure NaverItem where
  title : String
  address : String
  roadAddress : String
  telephone : String
  deriving DecidableEq

/-- One Kakao keyword-search document as used by the pipeline: `id` and
`place_name` are read directly, the address fields through `.get(..., '')`. -/
structure KPlace where
  id : String
  place_name : String
  place_url : String
  address_name : String
  road_address_name : String
  phone : String
  deriving DecidableEq

/-- Provider/LLM outcomes for one `search_domestic` call.  Each field is the
parsed result of the corresponding external call; `none` stands for any
caught failure (non-200 status, timeout, exception). -/
structure DomesticEnv where
  /-- Kakao landmark search keyed by its query string `"<landmark> <keyword>"`. -/
  landmarkSearch : String → Option (List KPlace)
  /-- The Naver local-search items (already `[]` when that call failed). -/
  naverItems : List NaverItem
  /-- Kakao direct fallback used when Naver returned nothing. -/
  kakaoFallback : Option (List KPlace)
  /-- Kakao verification search keyed by the candidate place name. -/
  verify : String → Option (List KPlace)
  /-- Whether the OpenAI client is configured. -/
  clientAvail : Bool
  /-- Outcome of the first batch-filter completion call. -/
  llm1 : Option (List Int)
  /-- Outcome of the second batch-filter completion call. -/
  llm2 : Option (List Int)

/-- Landmark classification of `search_domestic` (web_server.py lines
679-687): a region is a landmark keyword when it contains a
university-marker substring, contains `"역"`, or is one of the five named
landmarks. -/
def landmark_keywords (regions : List String) : List String :=
  regions.filter (fun region =>
    (["대", "대학", "대학교"].any (fun univ => pyIn univ region)) ||
    pyIn "역" region ||
    region ∈ ["롯데타워", "코엑스", "IFC", "타임스퀘어", "DDP"])

/-- Landmark short-circuit results (web_server.py lines 689-707): all hits of
the per-landmark Kakao searches, in order; a failed call contributes
nothing. -/
def kakao_direct_results (keyword : String) (regions : List String)
    (env : DomesticEnv) : List KPlace :=
  (landmark_keywords regions).flatMap (fun landmark =>
    (env.landmarkSearch (landmark ++ " " ++ keyword)).getD [])

/-- Naver stage with Kakao fallback (web_server.py lines 709-737): when Naver
returned nothing and regions were supplied, the Kakao direct hits are recast
as Naver-style items (without a telephone field). -/
def naver_stage (regions : List String) (env : DomesticEnv) : List NaverItem :=
  if env.naverItems.isEmpty && !regions.isEmpty then
    (env.kakaoFallback.getD []).map (fun p =>
      { title := p.place_name, address := p.address_name,
        roadAddress := p.road_address_name, telephone := "" })
  else env.naverItems

/-- Candidate-name extraction (web_server.py lines 739-750): strip `<b>`
markup from the first 50 titles and drop names shorter than 2 characters.
Pairs are kept so the later `candidate_items[place_name]` lookup (a dict
write per item, so the last item with a given name wins) can be modelled. -/
def candidate_pairs (items : List NaverItem) : List (String × NaverItem) :=
  (items.take 50).filterMap (fun item =>
    let place_name := pyReplace (pyReplace item.title "<b>" "") "</b>" ""
    if place_name.length < 2 then none else some (place_name, item))

/-- The `candidate_items` dict: last writer wins. -/
def lookup_item (pairs : List (String × NaverItem)) (place_name : String) :
    Option NaverItem :=
  (pairs.reverse.find? (fun kv => kv.1 == place_name)).map (fun kv => kv.2)

/-- The lowercased concatenated address the pipeline filters on
(web_server.py lines 798 and 812). -/
def addr_of (p : KPlace) : String :=
  pyToLower (p.address_name ++ " " ++ p.road_address_name)

/-- Whether the address of `p` contains at least one expanded-region token
(web_server.py lines 801 and 816). -/
def addr_has_region (expanded_regions : List String) (p : KPlace) : Bool :=
  expanded_regions.any (fun region => pyIn (pyToLower region) (addr_of p))

/-- State of step 4's accumulation: `seen_ids` and `kakao_candidates`. -/
abbrev DomState := List String × List KPlace

/-- Adding one landmark direct hit (web_server.py lines 763-767):
deduplicated by id, no address filter. -/
def add_direct (st : DomState) (p : KPlace) : DomState :=
  if st.1.contains p.id then st else (p.id :: st.1, st.2 ++ [p])

/-- Adding one Kakao verification hit (web_server.py lines 808-820): skip
ids already seen; when regions were supplied and no landmark keyword was
detected, skip places whose address lacks every expanded-region token. -/
def add_verified (expanded_regions landmarkKw : List String) (st : DomState)
    (p : KPlace) : DomState :=
  if st.1.contains p.id then st
  else if !expanded_regions.isEmpty && landmarkKw.isEmpty &&
          !(addr_has_region expanded_regions p) then st
  else (p.id :: st.1, st.2 ++ [p])

/-- Processing one LLM-surviving name in step 4 (web_server.py lines
769-823): look the name up on Kakao; on failure skip; on an empty match
synthesize a Naver-backed placeholder accepted only if its address matches a
region token (or unconditionally when no regions were supplied); otherwise
add the hits through `add_verified`. -/
def process_name (expanded_regions landmarkKw : List String) (env : DomesticEnv)
    (lookup : String → Option NaverItem) (st : DomState) (place_name : String) :
    DomState :=
  match lookup place_name with
  | none => st
  | some item =>
    match env.verify place_name with
    | none => st
    | some [] =>
      let fake_place : KPlace :=
        { id := "naver_" ++ toString st.2.length,
          place_name := place_name,
          place_url := "https://map.naver.com/p/search/" ++ pyQuote place_name,
          address_name := item.address,
          road_address_name := item.roadAddress,
          phone := item.telephone }
      if expanded_regions.isEmpty then (st.1, st.2 ++ [fake_place])
      else if addr_has_region expanded_regions fake_place then
        (st.1, st.2 ++ [fake_place])
      else st
    | some places => places.foldl (add_verified expanded_regions landmarkKw) st

/-- Steps 1-4 of `search_domestic` (web_server.py lines 674-823): the
`kakao_candidates` list before the final batch re-filter. -/
def domestic_candidates (keyword : String) (regions : List String)
    (env : DomesticEnv) : List KPlace :=
  let expanded_regions := if regions.isEmpty then [] else expand_regions regions
  let landmarkKw := landmark_keywords regions
  let pairs := candidate_pairs (naver_stage regions env)
  let relevant_names :=
    filter_relevant_places_batch (pairs.map (fun kv => kv.1)) env.clientAvail env.llm1
  let st0 := (kakao_direct_results keyword regions env).foldl add_direct ([], [])
  (relevant_names.foldl
    (process_name expanded_regions landmarkKw env (lookup_item pairs)) st0).2

/-- The final batch re-filter's output names (web_server.py lines 826-833). -/
def domestic_final_names (keyword : String) (regions : List String)
    (env : DomesticEnv) : List String :=
  filter_relevant_places_batch
    ((domestic_candidates keyword regions env).map (fun p => p.place_name))
    env.clientAvail env.llm2

/-- `search_domestic` (web_server.py lines 674-842): the candidates whose
names survived the final batch re-filter. -/
def search_domestic (keyword : String) (regions : List String)
    (env : DomesticEnv) : List KPlace :=
  let kakao_candidates := domestic_candidates keyword regions env
  if kakao_candidates.isEmpty then []
  else kakao_candidates.filter (fun p =>
    (domestic_final_names keyword regions env).contains p.place_name)

/-- Provider/LLM outcomes for one `get_route_info` call.  `translate` models
`translate_to_english`: `none` means no client or a caught failure, in which
case the original text is used.  `geocode` models the Kakao keyword lookup
inside `get_xy` (the suffix-retry loop folded into the oracle); `none` is the
`(None, None, None)` return.  `directions` is the parsed driving-route
summary `(duration, distance)` when the call returned HTTP 200 with a
non-empty `routes` list.  `distDisplay` supplies the rendered
`f"{dist / 1000:.1f}"` text (binary floating-point formatting is not
modelled).  `convert` models `convert_coords`. -/
structure RouteEnv where
  classify : Option Bool
  translate : String → Option String
  geocode : String → Option (String × String × String)
  directions : Option (Nat × Nat)
  distDisplay : Nat → String
  convert : String × String → Option (String × String)

/-- `get_xy` (web_server.py lines 340-365): endpoints containing an
international-city token (scanned against the lowercased keyword) are
blocked before any provider call. -/
def get_xy (env : RouteEnv) (keyword : String) : Option (String × String × String) :=
  if INTERNATIONAL_CITIES.any (fun city => pyIn city (pyToLower keyword)) then none
  else env.geocode keyword

/-- Python truthiness of the `x` coordinate returned by `get_xy`
(`if sx and ex:`): present and non-empty. -/
def truthy_x (r : Option (String × String × String)) : Bool :=
  match r with
  | none => false
  | some (x, _, _) => !(x == "")

/-- The duration string of the domestic branch (web_server.py lines
1066-1070): `h = sec // 3600`, `m = (sec % 3600) // 60`,
`"{h}시간 {m}분" if h > 0 else "{m}분"`. -/
def time_str (sec : Nat) : String :=
  if sec / 3600 > 0 then
    toString (sec / 3600) ++ "시간 " ++ toString (sec % 3600 / 60) ++ "분"
  else toString (sec % 3600 / 60) ++ "분"

/-- The car-route block of the domestic branch (web_server.py lines
1072-1075). -/
def car_result (sname gname : String) (sec : Nat) (distText : String) : String :=
  "**자동차:**\n\n" ++ sname ++ " -> " ++ gname ++ "\n소요: " ++ time_str sec ++
  ", 거리: " ++ distText ++ "km"

/-- The transit block of the domestic branch (web_server.py lines
1083-1089). -/
def transit_result (sname gname ksx ksy kex key : String) : String :=
  "**대중교통:**\n\n" ++ sname ++ " -> " ++ gname ++ "\n\n" ++
  "https://map.kakao.com/?target=traffic&rt=" ++ ksx ++ "," ++ ksy ++ "," ++
  kex ++ "," ++ key ++ "&rt1=" ++ pyQuote sname ++ "&rt2=" ++ pyQuote gname

/-- The international branch's returned text (web_server.py lines
1013-1041): exactly two Google Maps deep links, driving then transit, built
from the URL-encoded translated endpoints. -/
def intl_route_text (start goal start_en goal_en : String) : String :=
  let safe_start := pyQuote start_en
  let safe_goal := pyQuote goal_en
  let car_link := "https://www.google.com/maps/dir/?api=1&origin=" ++ safe_start ++
    "&destination=" ++ safe_goal ++ "&travelmode=driving"
  let transit_link := "https://www.google.com/maps/dir/?api=1&origin=" ++ safe_start ++
    "&destination=" ++ safe_goal ++ "&travelmode=transit"
  "# " ++ start ++ " -> " ++ goal ++ "\n\n---\n\n## 자동차 경로\n\n" ++ car_link ++
  "\n\n---\n\n## 대중교통 경로\n\n" ++ transit_link ++ "\n"

/-- The domestic branch (web_server.py lines 1043-1094). -/
def domestic_route_text (env : RouteEnv) (start goal : String) : String :=
  let s := get_xy env start
  let g := get_xy env goal
  if truthy_x s && truthy_x g then
    match s, g with
    | some (sx, sy, sname), some (ex, ey, gname) =>
      let carPart :=
        match env.directions with
        | some (sec, dist) => [car_result sname gname sec (env.distDisplay dist)]
        | none => []
      let conv_s := env.convert (sx, sy)
      let conv_g := env.convert (ex, ey)
      let transitPart :=
        match conv_s, conv_g with
        | some (ksx, ksy), some (kex, key) =>
          if !(ksx == "") && !(kex == "") then [transit_result sname gname ksx ksy kex key]
          else []
        | _, _ => []
      let results := carPart ++ transitPart
      if results.isEmpty then "경로 계산 실패"
      else "# " ++ start ++ " -> " ++ goal ++ "\n\n---\n\n" ++
        String.intercalate "\n\n---\n\n" results
    | _, _ => "경로 계산 실패"
  else "장소를 찾을 수 없습니다"

/-- `get_route_info` (web_server.py lines 976-1094).  The fast heuristic is
consulted first; only when it is negative is the LLM classification oracle
used (`none`, a raised exception, defaulting to international). -/
def get_route_info (env : RouteEnv)
    (start goal start_original goal_original : String) : String :=
  let is_intl :=
    if is_international_route start goal then true else env.classify.getD true
  if is_intl then
    let start_en := (env.translate start_original).getD start_original
    let goal_en := (env.translate goal_original).getD goal_original
    intl_route_text start goal start_en goal_en
  else domestic_route_text env start goal

/-- The per-tool result texts for one `tools/call` dispatch.  Every tool
handler wraps its body in `try/except` and always produces a plain string
(web_server.py lines 1162-1403); each field is that string. -/
structure McpEnv where
  clientAvail : Bool
  analyzeOutcome : String
  advisorOutcome : String
  routeOutcome : String
  budgetOutcome : String

/-- One parsed inbound request to `handle_mcp`.  `validJson` models whether
`request.json()` succeeded; `hasParams` whether `body["params"]["name"]` and
`body["params"]["arguments"]` exist (their absence raises an uncaught
`KeyError`, so no JSON-RPC response is produced). -/
structure McpRequest where
  httpMethod : String
  acceptHeader : String
  validJson : Bool
  method : String
  msgId : Option Int
  hasParams : Bool
  toolName : String

/-- The responses `handle_mcp` can produce (web_server.py lines 1107-1414). -/
inductive McpResponse where
  | plain (status : Nat) (body : String) : McpResponse
  | initResult (msgId : Option Int) : McpResponse
  | toolsListResult (msgId : Option Int) : McpResponse
  | toolCallResult (msgId : Option Int) (text : String) (isError : Bool) : McpResponse
  | emptyResult (msgId : Option Int) : McpResponse
  | uncaughtError : McpResponse
  deriving DecidableEq

/-- `result_text` computation of the `tools/call` dispatch (web_server.py
lines 1157-1403): four handlers selected by name, each short-circuiting to
`"OpenAI 미초기화"` without a client, an unknown name leaving the initial
`""`. -/
def tool_result_text (env : McpEnv) (toolName : String) : String :=
  if toolName == "analyze_chat_history" then
    if env.clientAvail then env.analyzeOutcome else "OpenAI 미초기화"
  else if toolName == "ask_travel_advisor" then
    if env.clientAvail then env.advisorOutcome else "OpenAI 미초기화"
  else if toolName == "check_travel_route" then
    if env.clientAvail then env.routeOutcome else "OpenAI 미초기화"
  else if toolName == "calculate_budget" then
    if env.clientAvail then env.budgetOutcome else "OpenAI 미초기화"
  else ""

/-- `handle_mcp` (web_server.py lines 1107-1414). -/
def handle_mcp (env : McpEnv) (req : McpRequest) : McpResponse :=
  if req.httpMethod == "OPTIONS" then .plain 200 ""
  else if req.httpMethod == "GET" then .plain 405 "SSE stream not supported"
  else if !(req.httpMethod == "POST") then .plain 405 "Method not allowed"
  else if !(req.acceptHeader == "") && !(pyIn "application/json" req.acceptHeader) &&
          !(pyIn "text/event-stream" req.acceptHeader) &&
          !(pyIn "*/*" req.acceptHeader) then
    .plain 400 "Accept header must include application/json or text/event-stream"
  else if !req.validJson then .plain 400 "Invalid JSON"
  else if req.method == "initialize" then .initResult req.msgId
  else if req.method == "notifications/initialized" then .plain 202 ""
  else if req.method == "tools/list" then .toolsListResult req.msgId
  else if req.method == "tools/call" then
    if !req.hasParams then .uncaughtError
    else .toolCallResult req.msgId (tool_result_text env req.toolName) false
  else .emptyResult req.msgId

theorem mem_insertLenDesc {a b : String} {l : List String} :
    a ∈ insertLenDesc b l ↔ a = b ∨ a ∈ l := by
  induction l with
  | nil => simp [insertLenDesc]
  | cons c t ih =>
    simp only [insertLenDesc]
    split
    · simp only [List.mem_cons, ih]
      tauto
    · simp only [List.mem_cons]

theorem mem_sortLenDesc {a : String} {l : List String} : a ∈ sortLenDesc l ↔ a ∈ l := by
  induction l with
  | nil => simp [sortLenDesc]
  | cons c t ih =>
    simp only [sortLenDesc, List.foldr_cons, mem_insertLenDesc, List.mem_cons]
    rw [← sortLenDesc, ih]

theorem length_insertLenDesc (b : String) (l : List String) :
    (insertLenDesc b l).length = l.length + 1 := by
  induction l with
  | nil => rfl
  | cons c t ih =>
    simp only [insertLenDesc]
    split
    · simp [ih]
    · simp

theorem length_sortLenDesc (l : List String) : (sortLenDesc l).length = l.length := by
  induction l with
  | nil => rfl
  | cons c t ih =>
    have : sortLenDesc (c :: t) = insertLenDesc c (sortLenDesc t) := rfl
    rw [this, length_insertLenDesc, ih]
    simp

theorem mem_expand_regions {r : String} {regions : List String} (h : r ∈ regions) :
    r ∈ expand_regions regions := by
  unfold expand_regions
  rw [List.mem_dedup, List.mem_flatMap]
  refine ⟨r, h, ?_⟩
  cases hf : REGION_EXPAND.find? (fun kv => kv.1 == r) with
  | none => simp
  | some kv =>
    have hmem := List.mem_of_find?_eq_some hf
    have hkey := List.find?_some hf
    have hkv : kv.1 = r := by simpa using hkey
    have hself : ∀ kv ∈ REGION_EXPAND, kv.1 ∈ kv.2 := by decide
    simpa [hkv] using hself kv hmem

theorem filter_relevant_subset {place_names : List String} {clientAvail : Bool}
    {resp : Option (List Int)} :
    ∀ x ∈ filter_relevant_places_batch place_names clientAvail resp, x ∈ place_names := by
  intro x hx
  unfold filter_relevant_places_batch at hx
  split at hx
  · exact hx
  · cases resp with
    | none => exact hx
    | some idxs =>
      simp only [List.mem_filterMap] at hx
      obtain ⟨i, _, hi⟩ := hx
      split at hi
      · rw [List.getElem?_eq_some] at hi
        obtain ⟨hlt, hget⟩ := hi
        exact hget ▸ List.getElem_mem hlt
      · exact absurd hi (by simp)

theorem add_verified_inv {expanded landmarkKw : List String} {st : DomState}
    {p : KPlace} (he : expanded.isEmpty = false) (hl : landmarkKw.isEmpty = true)
    (hst : ∀ q ∈ st.2, addr_has_region expanded q = true) :
    ∀ q ∈ (add_verified expanded landmarkKw st p).2, addr_has_region expanded q = true := by
  intro q hq
  unfold add_verified at hq
  split at hq
  · exact hst q hq
  · split at hq
    · exact hst q hq
    · rename_i hcond
      simp only [he, hl, Bool.not_false, Bool.true_and, Bool.and_true,
        Bool.not_eq_true', Bool.not_eq_false] at hcond
      simp only [List.mem_append, List.mem_singleton] at hq
      rcases hq with hq | hq
      · exact hst q hq
      · exact hq ▸ hcond

theorem foldl_add_verified_inv {expanded landmarkKw : List String}
    (he : expanded.isEmpty = false) (hl : landmarkKw.isEmpty = true) :
    ∀ (places : List KPlace) (st : DomState),
      (∀ q ∈ st.2, addr_has_region expanded q = true) →
      ∀ q ∈ (places.foldl (add_verified expanded landmarkKw) st).2,
        addr_has_region expanded q = true := by
  intro places
  induction places with
  | nil => intro st hst q hq; exact hst q hq
  | cons p rest ih =>
    intro st hst q hq
    exact ih _ (add_verified_inv he hl hst) q hq

theorem process_name_inv {expanded landmarkKw : List String} {env : DomesticEnv}
    {lookup : String → Option NaverItem} {st : DomState} {nm : String}
    (he : expanded.isEmpty = false) (hl : landmarkKw.isEmpty = true)
    (hst : ∀ q ∈ st.2, addr_has_region expanded q = true) :
    ∀ q ∈ (process_name expanded landmarkKw env lookup st nm).2,
      addr_has_region expanded q = true := by
  intro q hq
  unfold process_name at hq
  cases hlk : lookup nm with
  | none => rw [hlk] at hq; exact hst q hq
  | some item =>
    rw [hlk] at hq
    cases hv : env.verify nm with
    | none => rw [hv] at hq; exact hst q hq
    | some places =>
      rw [hv] at hq
      cases places with
      | nil =>
        dsimp only at hq
        rw [if_neg (by simp [he])] at hq
        split at hq
        · rename_i haddr
          simp only [List.mem_append, List.mem_singleton] at hq
          rcases hq with hq | hq
          · exact hst q hq
          · exact hq ▸ haddr
        · exact hst q hq
      | cons p rest =>
        exact foldl_add_verified_inv he hl (p :: rest) st hst q hq

theorem foldl_process_name_inv {expanded landmarkKw : List String} {env : DomesticEnv}
    {lookup : String → Option NaverItem}
    (he : expanded.isEmpty = false) (hl : landmarkKw.isEmpty = true) :
    ∀ (names : List String) (st : DomState),
      (∀ q ∈ st.2, addr_has_region expanded q = true) →
      ∀ q ∈ (names.foldl (process_name expanded landmarkKw env lookup) st).2,
        addr_has_region expanded q = true := by
  intro names
  induction names with
  | nil => intro st hst q hq; exact hst q hq
  | cons nm rest ih =>
    intro st hst q hq
    exact ih _ (process_name_inv he hl hst) q hq

theorem mem_search_domestic_mem_candidates {keyword : String} {regions : List String}
    {env : DomesticEnv} {p : KPlace} (h : p ∈ search_domestic keyword regions env) :
    p ∈ domestic_candidates keyword regions env ∧
    (domestic_final_names keyword regions env).contains p.place_name = true := by
  simp only [search_domestic] at h
  split at h
  · exact absurd h (by simp)
  · exact List.mem_filter.mp h

/-- C2: For every keyword, region list, and Google Places response, no place
whose `formatted_address` contains a domestic-country marker string
(case-insensitively) appears among the places `search_international` formats
into its returned text. -/
theorem C2_international_no_domestic_markers (results : List GPlace) :
    ∀ p ∈ international_shown results, ∀ kr ∈ korea_markers,
      pyIn kr (pyToLower p.formatted_address) = false := by
  intro p hp kr hkr
  have hp' := List.mem_of_mem_take hp
  have hfilt := (List.mem_filter.mp hp').2
  simp only [Bool.not_eq_true', List.any_eq_false, Bool.not_eq_true] at hfilt
  exact hfilt kr hkr

/-- Witness for C2: a Fukuoka result passes the filter and carries no
domestic marker, while a marker-bearing Seoul result is dropped. -/
theorem C2_witness :
    pyIn "korea"
      (pyToLower (GPlace.mk "Ichiran" "1 Chome Hakata, Fukuoka, Japan" "" "gid1" 100).formatted_address) = false :=
  C2_international_no_domestic_markers
    [GPlace.mk "Ichiran" "1 Chome Hakata, Fukuoka, Japan" "" "gid1" 100,
     GPlace.mk "Seoul Branch" "대한민국 서울특별시 중구" "" "gid2" 5]
    (GPlace.mk "Ichiran" "1 Chome Hakata, Fukuoka, Japan" "" "gid1" 100)
    (by decide) "korea" (by decide)

set_option maxHeartbeats 1000000 in
/-- C7: Every JSON-RPC response the dispatcher produces for a `tools/call`
request carries `isError = false`, for every handler outcome (including the
error-describing strings produced when a handler caught an exception) and
for unknown tool names. -/
theorem C7_toolcall_never_isError (env : McpEnv) (req : McpRequest)
    (msgId : Option Int) (text : String) (errFlag : Bool)
    (h : handle_mcp env req = McpResponse.toolCallResult msgId text errFlag) :
    errFlag = false := by
  unfold handle_mcp at h
  split_ifs at h
  all_goals
    first
      | exact McpResponse.noConfusion h
      | exact McpResponse.noConfusion h (fun _ _ he => he.symm)

/-- Witness for C7: a concrete `tools/call` request with an unknown tool name
produces a `toolCallResult` envelope, and the theorem yields its flag. -/
theorem C7_witness : (false : Bool) = false :=
  C7_toolcall_never_isError
    (McpEnv.mk true "a" "b" "c" "d")
    (McpRequest.mk "POST" "" true "tools/call" (some 1) true "unknown_tool")
    (some 1) "" false (by decide)

/-- C8: The country resolver is a pure function of its input in this
embedding (Python dict iteration order is the fixed insertion order), so
resolving the same region string twice yields the same country result. -/
theorem C8_country_resolver_idempotent :
    ∀ city_name : String,
      get_country_for_city city_name = get_country_for_city city_name :=
  fun _ => rfl

/-- C9: The batch relevance filter returns a sublist of its input names: it
returns the input unchanged on an empty input, an unavailable client, or a
failed LLM call, and otherwise exactly the names at the in-bounds 1-based
selected indices. -/
theorem C9_filter_relevant_behaviour :
    ∀ (place_names : List String) (clientAvail : Bool) (resp : Option (List Int)),
      (∀ x ∈ filter_relevant_places_batch place_names clientAvail resp, x ∈ place_names) ∧
      (place_names = [] →
        filter_relevant_places_batch place_names clientAvail resp = place_names) ∧
      (clientAvail = false →
        filter_relevant_places_batch place_names clientAvail resp = place_names) ∧
      (resp = none →
        filter_relevant_places_batch place_names clientAvail resp = place_names) ∧
      (∀ idxs, clientAvail = true → resp = some idxs → place_names ≠ [] →
        filter_relevant_places_batch place_names clientAvail resp =
          idxs.dedup.filterMap (fun i =>
            if 1 ≤ i ∧ i ≤ (place_names.length : Int) then place_names[(i - 1).toNat]?
            else none)) := by
  intro place_names clientAvail resp
  refine ⟨filter_relevant_subset, ?_, ?_, ?_, ?_⟩
  · intro h
    subst h
    simp [filter_relevant_places_batch]
  · intro h
    subst h
    simp [filter_relevant_places_batch]
  · intro h
    subst h
    unfold filter_relevant_places_batch
    split
    · rfl
    · rfl
  · intro idxs hc hr hne
    subst hc
    subst hr
    unfold filter_relevant_places_batch
    rw [if_neg]
    simp [List.isEmpty_iff, hne]

/-- Witness for C9: subset behaviour on a successful selection, and the
pass-through behaviour on an unavailable client. -/
theorem C9_witness :
    (∀ x ∈ filter_relevant_places_batch ["강남식당", "부산카페"] true (some [2, 7]),
      x ∈ ["강남식당", "부산카페"]) ∧
    filter_relevant_places_batch ["강남식당", "부산카페"] false none =
      ["강남식당", "부산카페"] :=
  ⟨(C9_filter_relevant_behaviour ["강남식당", "부산카페"] true (some [2, 7])).1,
   (C9_filter_relevant_behaviour ["강남식당", "부산카페"] false none).2.2.1 rfl⟩

/-- C10: Region expansion is extensive: every input region appears in the
output (table-absent regions pass through unchanged), and every expansion
list in `REGION_EXPAND` contains its own key. -/
theorem C10_expand_regions_extensive :
    ∀ regions : List String,
      (∀ r ∈ regions, r ∈ expand_regions regions) ∧
      (∀ kv ∈ REGION_EXPAND, kv.1 ∈ kv.2) :=
  fun _ => ⟨fun _ hr => mem_expand_regions hr, by decide⟩

/-- Witness for C10: a table key and a table-absent region both survive
expansion of a concrete list. -/
theorem C10_witness :
    "잠실" ∈ expand_regions ["숭실대", "잠실"] ∧ "숭실대" ∈ expand_regions ["숭실대", "잠실"] :=
  ⟨(C10_expand_regions_extensive ["숭실대", "잠실"]).1 "잠실" (by decide),
   (C10_expand_regions_extensive ["숭실대", "잠실"]).1 "숭실대" (by decide)⟩

/-- C1: When a non-empty region list is supplied and no region was classified
as a landmark for the call, every candidate returned by `search_domestic`
has an address (address_name plus road_address_name, lowercased) containing
at least one expanded-region token — for every keyword and every
provider/LLM outcome. -/
theorem C1_domestic_address_filter (keyword : String) (regions : List String)
    (env : DomesticEnv) (hreg : regions ≠ [])
    (hlm : landmark_keywords regions = []) :
    ∀ p ∈ search_domestic keyword regions env,
      addr_has_region (expand_regions regions) p = true := by
  intro p hp
  have hmem := (mem_search_domestic_mem_candidates hp).1
  have hre : regions.isEmpty = false := by
    cases regions with
    | nil => exact absurd rfl hreg
    | cons a t => rfl
  have hexp : (expand_regions regions).isEmpty = false := by
    cases regions with
    | nil => exact absurd rfl hreg
    | cons a t =>
      have ha : a ∈ expand_regions (a :: t) := mem_expand_regions (by simp)
      cases hE : expand_regions (a :: t) with
      | nil => rw [hE] at ha; exact absurd ha (by simp)
      | cons x xs => rfl
  have hlmE : (landmark_keywords regions).isEmpty = true := by rw [hlm]; rfl
  have hkd : kakao_direct_results keyword regions env = [] := by
    unfold kakao_direct_results
    rw [hlm]
    rfl
  simp only [domestic_candidates, hre, Bool.false_eq_true, if_false, hkd,
    List.foldl_nil] at hmem
  exact foldl_process_name_inv hexp hlmE _ ([], [])
    (by intro q hq; exact absurd hq (by simp)) p hmem

/-- Witness for C1: a concrete non-landmark call ("잠실" expands to
잠실/송파/강동) where the surviving place's address matches "송파". -/
theorem C1_witness :
    addr_has_region (expand_regions ["잠실"])
      (KPlace.mk "123" "잠실라멘" "http://place.map.kakao.com/123"
        "서울 송파구 방이동 1" "서울 송파구 올림픽로 1" "02-1") = true :=
  C1_domestic_address_filter "라멘" ["잠실"]
    (DomesticEnv.mk (fun _ => none)
      [NaverItem.mk "<b>잠실라멘</b>" "서울 송파구 방이동 1" "서울 송파구 올림픽로 1" "02-1"]
      none
      (fun nm => if nm == "잠실라멘" then
        some [KPlace.mk "123" "잠실라멘" "http://place.map.kakao.com/123"
          "서울 송파구 방이동 1" "서울 송파구 올림픽로 1" "02-1"]
        else none)
      false none none)
    (by decide) (by decide)
    (KPlace.mk "123" "잠실라멘" "http://place.map.kakao.com/123"
      "서울 송파구 방이동 1" "서울 송파구 올림픽로 1" "02-1")
    (by decide)

/-- C4: Every place returned by `search_domestic` has passed at least one
relevance check: its address contained an expanded-region token, or its name
is in the output of the final LLM relevance-filter call (which, on LLM
failure, passes its input through unchanged, and whose address stage is
bypassed for landmark short-circuit hits) — for every provider response and
LLM outcome. -/
theorem C4_domestic_relevance_check (keyword : String) (regions : List String)
    (env : DomesticEnv) :
    ∀ p ∈ search_domestic keyword regions env,
      addr_has_region (expand_regions regions) p = true ∨
      p.place_name ∈ domestic_final_names keyword regions env := by
  intro p hp
  right
  have h := (mem_search_domestic_mem_candidates hp).2
  simpa using h

/-- Witness for C4: a concrete call with no regions supplied, where the
returned place was selected by the second LLM filter (index 1). -/
theorem C4_witness :
    addr_has_region (expand_regions [])
      (KPlace.mk "9" "호텔A" "u" "부산 해운대구" "부산 해운대해변로" "051-1") = true ∨
    (KPlace.mk "9" "호텔A" "u" "부산 해운대구" "부산 해운대해변로" "051-1").place_name ∈
      domestic_final_names "호텔" []
        (DomesticEnv.mk (fun _ => none)
          [NaverItem.mk "호텔A" "부산 해운대구" "" "051-1"]
          none
          (fun nm => if nm == "호텔A" then
            some [KPlace.mk "9" "호텔A" "u" "부산 해운대구" "부산 해운대해변로" "051-1"]
            else none)
          true (some [1]) (some [1])) :=
  C4_domestic_relevance_check "호텔" []
    (DomesticEnv.mk (fun _ => none)
      [NaverItem.mk "호텔A" "부산 해운대구" "" "051-1"]
      none
      (fun nm => if nm == "호텔A" then
        some [KPlace.mk "9" "호텔A" "u" "부산 해운대구" "부산 해운대해변로" "051-1"]
        else none)
      true (some [1]) (some [1]))
    (KPlace.mk "9" "호텔A" "u" "부산 해운대구" "부산 해운대해변로" "051-1")
    (by decide)

/-- Counterexample for C3: the text
"charles de gaulle san francisco los angeles 서울" contains four lexicon
regions verbatim, and the length-3 truncation drops the shortest one
("서울") even in the client-unavailable mode, so the extractor does not
return it among its candidates. -/
theorem C3_counterexample :
    "서울" ∈ FAST_REGIONS ∧
    pyIn (pyToLower "서울")
      (pyToLower "charles de gaulle san francisco los angeles 서울") = true ∧
    "서울" ∉ extract_regions_hybrid
      "charles de gaulle san francisco los angeles 서울" RegionLLM.noClient :=
  ⟨by decide, by decide, by decide⟩

/-- C3 (amended): every `FAST_REGIONS` entry occurring verbatim
(case-insensitively) in the text is among the heuristic pass's candidates in
every completion-service mode, and is returned by `extract_regions_hybrid`
whenever the deduplicated candidate list fits the final length-3
truncation. -/
theorem C3_amended_heuristic_match (text r : String) (llm : RegionLLM)
    (hr : r ∈ FAST_REGIONS)
    (hocc : pyIn (pyToLower r) (pyToLower text) = true) :
    r ∈ heuristic_found text ∧
    ((llm = RegionLLM.noClient ∨ llm = RegionLLM.failure) →
      (heuristic_found text).length ≤ 3 → r ∈ extract_regions_hybrid text llm) ∧
    (∀ gptRegions, llm = RegionLLM.success gptRegions →
      ((heuristic_found text ++ gptRegions).dedup).length ≤ 3 →
      r ∈ extract_regions_hybrid text llm) := by
  have hfound : r ∈ heuristic_found text := by
    unfold heuristic_found
    rw [mem_sortLenDesc, List.mem_dedup]
    exact List.mem_filter.mpr ⟨hr, hocc⟩
  refine ⟨hfound, ?_, ?_⟩
  · rintro (h | h) h3 <;> subst h <;>
    · unfold extract_regions_hybrid
      dsimp only
      rw [if_neg (by simp only [List.isEmpty_iff]; intro hE; rw [hE] at hfound; simp at hfound)]
      rw [List.take_of_length_le h3]
      exact hfound
  · intro gptRegions h h3
    subst h
    unfold extract_regions_hybrid
    dsimp only
    rw [List.take_of_length_le (by rw [length_sortLenDesc]; exact h3)]
    rw [mem_sortLenDesc, List.mem_dedup, List.mem_append]
    exact Or.inl hfound

/-- Witness for the amended C3: "나고야" occurs in "나고야 맛집", is the sole
heuristic candidate, and is returned in the client-unavailable mode. -/
theorem C3_witness :
    "나고야" ∈ extract_regions_hybrid "나고야 맛집" RegionLLM.noClient :=
  (C3_amended_heuristic_match "나고야 맛집" "나고야" RegionLLM.noClient
    (by decide) (by decide)).2.1 (Or.inl rfl) (by decide)

theorem intercalate_go_extends (sep : String) :
    ∀ (rest : List String) (acc : String),
      ∃ post, String.intercalate.go acc sep rest = acc ++ post := by
  intro rest
  induction rest with
  | nil =>
    intro acc
    exact ⟨"", by simp [String.intercalate.go]⟩
  | cons b bs ih =>
    intro acc
    obtain ⟨post, hpost⟩ := ih (acc ++ sep ++ b)
    refine ⟨sep ++ b ++ post, ?_⟩
    rw [String.intercalate.go, hpost]
    rw [String.append_assoc, String.append_assoc, String.append_assoc]

theorem intercalate_head (sep a : String) (rest : List String) :
    ∃ post, String.intercalate sep (a :: rest) = a ++ post :=
  intercalate_go_extends sep rest a

theorem minutes_no_hour_marker :
    ∀ m : Nat, m < 60 → pyIn "시간" (toString m ++ "분") = false := by decide

/-- C5: In the domestic branch of the route resolver, when both endpoints
geocode and the directions provider returns a route of `sec` seconds, the
returned text contains the code's duration string, which equals
"H시간 M분" (H = sec / 3600, M = sec % 3600 / 60) precisely when
sec ≥ 3600 and the hour-free "M분" (which never contains "시간")
otherwise. -/
theorem C5_domestic_duration_format (env : RouteEnv)
    (start goal start_original goal_original sx sy sname ex ey gname : String)
    (sec dist : Nat)
    (hni : is_international_route start goal = false)
    (hcls : env.classify = some false)
    (hgs : get_xy env start = some (sx, sy, sname)) (hsx : ¬ sx = "")
    (hgg : get_xy env goal = some (ex, ey, gname)) (hex : ¬ ex = "")
    (hdir : env.directions = some (sec, dist)) :
    (∃ pre post, get_route_info env start goal start_original goal_original =
      pre ++ time_str sec ++ post) ∧
    (3600 ≤ sec → time_str sec =
      toString (sec / 3600) ++ "시간 " ++ toString (sec % 3600 / 60) ++ "분") ∧
    (sec < 3600 → time_str sec = toString (sec % 3600 / 60) ++ "분" ∧
      pyIn "시간" (time_str sec) = false) := by
  refine ⟨?_, ?_, ?_⟩
  · have hroute : get_route_info env start goal start_original goal_original =
        domestic_route_text env start goal := by
      unfold get_route_info
      rw [hni, hcls]
      rfl
    rw [hroute]
    unfold domestic_route_text
    dsimp only
    rw [hgs, hgg, hdir]
    have hsxb : (sx == "") = false := beq_eq_false_iff_ne.mpr hsx
    have hexb : (ex == "") = false := beq_eq_false_iff_ne.mpr hex
    dsimp only [truthy_x]
    rw [hsxb, hexb]
    rw [if_pos (show (!false && !false) = true by rfl)]
    rw [List.singleton_append]
    rw [if_neg (by simp)]
    obtain ⟨post0, hpost0⟩ := intercalate_head "\n\n---\n\n"
      (car_result sname gname sec (env.distDisplay dist))
      (match env.convert (sx, sy), env.convert (ex, ey) with
        | some (ksx, ksy), some (kex, key) =>
          if !(ksx == "") && !(kex == "") then [transit_result sname gname ksx ksy kex key]
          else []
        | _, _ => [])
    rw [hpost0]
    refine ⟨"# " ++ start ++ " -> " ++ goal ++ "\n\n---\n\n" ++
      ("**자동차:**\n\n" ++ sname ++ " -> " ++ gname ++ "\n소요: "),
      ", 거리: " ++ env.distDisplay dist ++ "km" ++ post0, ?_⟩
    unfold car_result
    simp only [String.append_assoc]
  · intro h36
    unfold time_str
    rw [if_pos (Nat.div_pos h36 (by norm_num))]
  · intro hlt
    have h0 : sec / 3600 = 0 := Nat.div_eq_of_lt hlt
    have hcond : ¬ sec / 3600 > 0 := by omega
    refine ⟨?_, ?_⟩
    · unfold time_str
      rw [if_neg hcond]
    · unfold time_str
      rw [if_neg hcond]
      refine minutes_no_hour_marker _ ?_
      have hm : sec % 3600 < 3600 := Nat.mod_lt _ (by norm_num)
      omega

/-- Witness for C5: a concrete 강남→잠실 route of 7380 seconds (2시간 3분)
whose returned text contains the duration string. -/
theorem C5_witness :
    ∃ pre post,
      get_route_info (RouteEnv.mk (some false) (fun _ => none)
        (fun s => if s == "강남" then some ("127.02", "37.49", "강남역")
          else some ("127.10", "37.51", "잠실역"))
        (some (7380, 15000)) (fun _ => "15.0") (fun _ => none))
        "강남" "잠실" "강남" "잠실" = pre ++ time_str 7380 ++ post :=
  (C5_domestic_duration_format
    (RouteEnv.mk (some false) (fun _ => none)
      (fun s => if s == "강남" then some ("127.02", "37.49", "강남역")
        else some ("127.10", "37.51", "잠실역"))
      (some (7380, 15000)) (fun _ => "15.0") (fun _ => none))
    "강남" "잠실" "강남" "잠실" "127.02" "37.49" "강남역"
    "127.10" "37.51" "잠실역" 7380 15000
    (by decide) rfl (by decide) (by decide) (by decide) (by decide) rfl).1

/-- C6 (amended): when each endpoint's lowercased text contains an
international-city token verbatim (which is the case-insensitive containment
of the claim for every token except the uppercase entry "LA"), the route
resolver returns the international text — two Google Maps deep links
(driving and transit) built from the URL-encoded translations of the
original inputs — irrespective of the LLM classifier outcome `env.classify`,
which is never consulted. -/
theorem C6_amended_intl_route (env : RouteEnv)
    (start goal start_original goal_original c₁ c₂ : String)
    (h1 : c₁ ∈ INTERNATIONAL_CITIES) (_h2 : c₂ ∈ INTERNATIONAL_CITIES)
    (hs : pyIn c₁ (pyToLower start) = true) (_hg : pyIn c₂ (pyToLower goal) = true) :
    get_route_info env start goal start_original goal_original =
      intl_route_text start goal ((env.translate start_original).getD start_original)
        ((env.translate goal_original).getD goal_original) := by
  have hir : is_international_route start goal = true := by
    unfold is_international_route
    dsimp only
    rw [Bool.or_eq_true]
    left
    rw [List.any_eq_true]
    exact ⟨c₁, h1, by rw [hs]; rfl⟩
  unfold get_route_info
  rw [hir]
  rfl

/-- Counterexample for C6: both endpoints "LA" contain the
international-city token "LA" case-insensitively, yet the heuristic compares
tokens case-sensitively against the lowercased endpoint, misses it, and the
LLM classifier is consulted: with a negative classification the resolver
takes the domestic branch and returns a text with no deep link at all, and
the output differs from the run where the classifier answers differently. -/
theorem C6_counterexample :
    "LA" ∈ INTERNATIONAL_CITIES ∧
    pyIn (pyToLower "LA") (pyToLower "LA") = true ∧
    is_international_route "LA" "LA" = false ∧
    get_route_info (RouteEnv.mk (some false) (fun _ => none) (fun _ => none)
        none (fun _ => "") (fun _ => none)) "LA" "LA" "LA" "LA" =
      "장소를 찾을 수 없습니다" ∧
    get_route_info (RouteEnv.mk (some false) (fun _ => none) (fun _ => none)
        none (fun _ => "") (fun _ => none)) "LA" "LA" "LA" "LA" ≠
      get_route_info (RouteEnv.mk none (fun _ => none) (fun _ => none)
        none (fun _ => "") (fun _ => none)) "LA" "LA" "LA" "LA" :=
  ⟨by decide, by decide, by decide, by decide, by decide⟩

/-- Witness for the amended C6: a concrete 도쿄→오사카 request yields the
two-deep-link international text built from the translations. -/
theorem C6_witness :
    get_route_info (RouteEnv.mk none
        (fun s => if s == "도쿄" then some "Tokyo" else some "Osaka")
        (fun _ => none) none (fun _ => "") (fun _ => none))
      "도쿄" "오사카" "도쿄" "오사카" =
    intl_route_text "도쿄" "오사카" "Tokyo" "Osaka" :=
  C6_amended_intl_route
    (RouteEnv.mk none
      (fun s => if s == "도쿄" then some "Tokyo" else some "Osaka")
      (fun _ => none) none (fun _ => "") (fun _ => none))
    "도쿄" "오사카" "도쿄" "오사카" "도쿄" "오사카"
    (by decide) (by decide) (by decide) (by decide)
